import Mathlib

/-!
Shallow embedding of `src/packages/stack/src/views/Stack/CardStack.tsx`
(react-navigation stack card renderer).

JavaScript object identity (`===`) is modelled by giving every heap-allocated
object (routes, descriptors, animated gesture trackers, route-list and
descriptor-map containers) an allocation id; two objects are `===` exactly
when the Lean values are equal.  Animated values and the interpolation nodes
produced by `Animated.Value.interpolate` are modelled as first-class data
(`AnimatedValue`, `Interpolation`) together with an evaluation function
mirroring react-native's piecewise-linear `interpolate` algorithm.
Numbers are rationals.
-/

namespace RNStack

/-- The four gesture directions of the stack (`types.tsx`). -/
inductive GestureDirection where
  | horizontal
  | horizontalInverted
  | vertical
  | verticalInverted
deriving DecidableEq

/-- `StackCardMode` from `types.tsx`. -/
inductive StackCardMode where
  | card
  | modal
deriving DecidableEq

/-- `StackHeaderMode` from `types.tsx`. -/
inductive StackHeaderMode where
  | float
  | screen
  | noHeader
deriving DecidableEq

/-- Viewport layout `{width, height}`. -/
structure Layout where
  width : ℚ
  height : ℚ
deriving DecidableEq

/-- Safe-area insets `{top, right, bottom, left}`. -/
structure Insets where
  top : ℚ
  right : ℚ
  bottom : ℚ
  left : ℚ
deriving DecidableEq

/-- Opaque token standing for a `transitionSpec` function object. -/
inductive TransitionSpecToken where
  | defaultSpec
  | modalSpec
  | custom (n : Nat)
deriving DecidableEq

/-- Opaque token standing for a `cardStyleInterpolator` function object. -/
inductive CardInterpolatorToken where
  | forNoAnimationCard
  | defaultCard
  | modalCard
  | custom (n : Nat)
deriving DecidableEq

/-- Opaque token standing for a `headerStyleInterpolator` function object. -/
inductive HeaderInterpolatorToken where
  | forNoAnimationHeader
  | defaultHeader
  | modalHeader
  | custom (n : Nat)
deriving DecidableEq

/-- The subset of `StackNavigationOptions` read by `CardStack.tsx`.
`headerStyleHeight` is `some h` when `StyleSheet.flatten(options.headerStyle).height`
is the number `h`; `safeAreaInsetsTop` is `some t` when `options.safeAreaInsets`
supplies a numeric `top`.  A `none` field models an absent option. -/
structure StackNavigationOptions where
  gestureDirection : Option GestureDirection := none
  animationEnabled : Option Bool := none
  headerStyleHeight : Option ℚ := none
  safeAreaInsetsTop : Option ℚ := none
  headerStatusBarHeight : Option ℚ := none
  transitionSpec : Option TransitionSpecToken := none
  cardStyleInterpolator : Option CardInterpolatorToken := none
  headerStyleInterpolator : Option HeaderInterpolatorToken := none
deriving DecidableEq

/-- A transition preset bundle (`TransitionPresets.tsx`). -/
structure TransitionPreset where
  gestureDirection : GestureDirection
  transitionSpec : TransitionSpecToken
  cardStyleInterpolator : CardInterpolatorToken
  headerStyleInterpolator : HeaderInterpolatorToken
deriving DecidableEq

/-- Modelled from the spec: `DefaultTransition` lives in
`src/TransitionConfigs/TransitionPresets.tsx`, which is not included under
`src/`.  Per the spec (§4.4, §8) the default (card) preset uses a horizontal
slide; its spec/interpolator members are modelled as opaque tokens. -/
def DefaultTransition : TransitionPreset :=
  ⟨.horizontal, .defaultSpec, .defaultCard, .defaultHeader⟩

/-- Modelled from the spec: `ModalTransition` lives in
`src/TransitionConfigs/TransitionPresets.tsx`, which is not included under
`src/`.  Per the spec (§4.4, §4.6) the modal preset slides vertically; its
spec/interpolator members are modelled as opaque tokens. -/
def ModalTransition : TransitionPreset :=
  ⟨.vertical, .modalSpec, .modalCard, .modalHeader⟩

/-- A descriptor object; `id` models JavaScript object identity. -/
structure Descriptor where
  id : Nat
  options : StackNavigationOptions
deriving DecidableEq

/-- The frozen `FALLBACK_DESCRIPTOR = Object.freeze({ options: {} })` sentinel:
a single shared object, so it is `===`-stable across derivations. -/
def FALLBACK_DESCRIPTOR : Descriptor := ⟨0, {}⟩

/-- A route object; `id` models JavaScript object identity, `key` is the
unique route key. -/
structure Route where
  id : Nat
  key : String
deriving DecidableEq

/-- An `Animated.Value`; `id` models object identity (each `new Animated.Value`
allocates a fresh id), `initial` is the construction-time value. -/
structure AnimatedValue where
  id : Nat
  initial : ℚ
deriving DecidableEq

/-- React-native's piecewise-linear `interpolate`: pick the first segment whose
right endpoint is `≥ t` (the last segment if none is), then map linearly,
clamping the input into the segment when `clampEx` is true (the
`extrapolate: 'clamp'` behaviour) and extrapolating linearly otherwise. -/
def interpolate : List ℚ → List ℚ → Bool → ℚ → ℚ
  | a :: b :: restIn, c :: d :: restOut, clampEx, t =>
    if restIn = [] ∨ b ≥ t then
      let tc := if clampEx then (if t < a then a else if t > b then b else t) else t
      c + (tc - a) * (d - c) / (b - a)
    else interpolate (b :: restIn) (d :: restOut) clampEx t
  | _, _, _, _ => 0

/-- An interpolation node produced by `value.interpolate({...})`. -/
structure Interpolation where
  parent : AnimatedValue
  inputRange : List ℚ
  outputRange : List ℚ
  extrapolateClamp : Bool
deriving DecidableEq

/-- Value of an interpolation node when its parent animated value is `v`. -/
def Interpolation.eval (node : Interpolation) (v : ℚ) : ℚ :=
  interpolate node.inputRange node.outputRange node.extrapolateClamp v

/-- Modelled from the spec: `getDistanceForDirection` lives in
`src/utils/getDistanceForDirection.tsx`, which is not included under `src/`.
Per the spec (§4.1, §8) it returns a scalar whose magnitude is the dimension
of the gesture axis with sign matching the direction (inverted directions
negative).  The ≥ 1 coercion described in §4.1/§7 is performed by the caller
`getProgressFromGesture` in the included source (with an explicit comment),
so it is not part of this function. -/
def getDistanceForDirection (layout : Layout) (gestureDirection : GestureDirection) : ℚ :=
  match gestureDirection with
  | .horizontal => layout.width
  | .horizontalInverted => -layout.width
  | .vertical => layout.height
  | .verticalInverted => -layout.height

/-- `getDistanceFromOptions` (CardStack.tsx lines 112-124): resolve the gesture
direction from the descriptor's options with a mode-dependent preset default,
then measure the travel distance. -/
def getDistanceFromOptions (mode : StackCardMode) (layout : Layout)
    (descriptor : Option Descriptor) : ℚ :=
  let gestureDirection :=
    ((descriptor.map Descriptor.options).getD {}).gestureDirection.getD
      (if mode = .modal then ModalTransition.gestureDirection
       else DefaultTransition.gestureDirection)
  getDistanceForDirection layout gestureDirection

/-- `Math.max(1, x)`, written with an `if` so that it evaluates in the
kernel. -/
def atLeastOne (x : ℚ) : ℚ := if x < 1 then 1 else x

/-- The layout with both dimensions coerced to at least 1, as built inline in
`getProgressFromGesture` (CardStack.tsx lines 134-139). -/
def clampLayout (layout : Layout) : Layout :=
  ⟨atLeastOne layout.width, atLeastOne layout.height⟩

/-- `getProgressFromGesture` (CardStack.tsx lines 126-154): compute the travel
distance on a layout whose dimensions are coerced to at least 1, then build
the interpolation node mapping the raw gesture value to progress. -/
def getProgressFromGesture (mode : StackCardMode) (gesture : AnimatedValue)
    (layout : Layout) (descriptor : Option Descriptor) : Interpolation :=
  let distance := getDistanceFromOptions mode (clampLayout layout) descriptor
  if distance > 0 then ⟨gesture, [0, distance], [1, 0], false⟩
  else ⟨gesture, [distance, 0], [0, 1], false⟩

/-- Modelled from the spec: `getDefaultHeaderHeight` lives in
`src/views/Header/HeaderSegment.tsx`, which is not included under `src/`.
Per the spec (§4.3) it computes a platform-default header height from the
layout and the resolved status-bar height; the concrete constants are a
representative choice (shorter bar in landscape). -/
def getDefaultHeaderHeight (layout : Layout) (statusBarHeight : ℚ) : ℚ :=
  (if layout.width > layout.height then 32 else 44) + statusBarHeight

/-- Pointwise update of a string-keyed map, modelling `acc[key] = v`. -/
def setKey {α : Type} (m : String → Option α) (k : String) (v : α) :
    String → Option α :=
  fun x => if x = k then some v else m x

/-- The per-key body of the `getHeaderHeights` reduce (CardStack.tsx lines
89-108): explicit numeric `headerStyle.height` if present, else the previous
height for this key, else the default height from the layout and the resolved
status bar height (descriptor's `headerStatusBarHeight`, else the
`safeAreaInsets`-overridden top inset). -/
def headerHeightFor (insets : Insets) (descriptors : String → Option Descriptor)
    (layout : Layout) (previous : String → Option ℚ) (k : String) : ℚ :=
  let options := ((descriptors k).map Descriptor.options).getD {}
  let height : Option ℚ :=
    match options.headerStyleHeight with
    | some h => some h
    | none => previous k
  let safeAreaTop := options.safeAreaInsetsTop.getD insets.top
  let statusBarHeight := options.headerStatusBarHeight.getD safeAreaTop
  match height with
  | some h => h
  | none => getDefaultHeaderHeight layout statusBarHeight

/-- `getHeaderHeights` (CardStack.tsx lines 82-110): a full-replacement map
over the current routes (starting from the empty object). -/
def getHeaderHeights (routes : List Route) (insets : Insets)
    (descriptors : String → Option Descriptor) (layout : Layout)
    (previous : String → Option ℚ) : String → Option ℚ :=
  routes.foldl
    (fun acc r => setKey acc r.key (headerHeightFor insets descriptors layout previous r.key))
    (fun _ => none)

/-- The dependency tuple stored in `scene.__memo` (CardStack.tsx lines
235-244): route, layout, resolved descriptor, next/previous descriptor and
the own/next/previous gesture trackers.  Equality of two memos models the
element-wise `===` comparison of the memo arrays. -/
structure SceneMemo where
  route : Route
  layout : Layout
  descriptor : Descriptor
  nextDescriptor : Option Descriptor
  previousDescriptor : Option Descriptor
  gesture : AnimatedValue
  nextGesture : Option AnimatedValue
  previousGesture : Option AnimatedValue
deriving DecidableEq

/-- The progress bundle of a scene. -/
structure SceneProgress where
  current : Interpolation
  next : Option Interpolation
  previous : Option Interpolation
deriving DecidableEq

/-- A derived scene (`Scene` in `types.tsx` plus the `__memo` field). -/
structure Scene where
  route : Route
  descriptor : Descriptor
  progress : SceneProgress
  memo : SceneMemo
deriving DecidableEq

/-- The props consumed by `getDerivedStateFromProps`.  `routesId` and
`descriptorsId` model the object identity of the `routes` array and the
`descriptors` map, which the derivation guard compares with `===`. -/
structure Props where
  mode : StackCardMode
  insets : Insets
  routesId : Nat
  routes : List Route
  descriptorsId : Nat
  descriptors : String → Option Descriptor
  openingRouteKeys : List String

/-- The component state of `CardStack`. -/
structure State where
  routesId : Nat
  routes : List Route
  descriptorsId : Nat
  descriptors : String → Option Descriptor
  scenes : List Scene
  gestures : String → Option AnimatedValue
  layout : Layout
  headerHeights : String → Option ℚ

/-- Initial value of a freshly created gesture tracker (CardStack.tsx lines
165-176): the full transition distance measured on `state.layout` when the
route key is opening and `animationEnabled` is not explicitly `false`,
otherwise 0. -/
def gestureInitValue (props : Props) (state : State) (k : String) : ℚ :=
  let descriptor := props.descriptors k
  let animationEnabled := descriptor.bind (fun d => d.options.animationEnabled)
  if k ∈ props.openingRouteKeys ∧ animationEnabled ≠ some false then
    getDistanceFromOptions props.mode state.layout descriptor
  else 0

/-- The `gestures` reduce of `getDerivedStateFromProps`: reuse
`state.gestures[key]` when present, otherwise allocate a fresh
`Animated.Value` (fresh allocation ids are threaded through `fresh`). -/
def buildGesturesGo (stateGestures : String → Option AnimatedValue)
    (initOf : String → ℚ) :
    List Route → Nat → (String → Option AnimatedValue) → (String → Option AnimatedValue)
  | [], _, acc => acc
  | r :: rest, fresh, acc =>
    match stateGestures r.key with
    | some g => buildGesturesGo stateGestures initOf rest fresh (setKey acc r.key g)
    | none =>
      buildGesturesGo stateGestures initOf rest (fresh + 1)
        (setKey acc r.key ⟨fresh, initOf r.key⟩)

/-- The full `gestures` object built by `getDerivedStateFromProps`. -/
def buildGestures (props : Props) (state : State) (fresh : Nat) :
    String → Option AnimatedValue :=
  buildGesturesGo state.gestures (gestureInitValue props state) props.routes fresh
    (fun _ => none)

/-- `props.descriptors[r.key] || state.descriptors[r.key]` for an adjacent
route that may be absent. -/
def resolveAdjacentDescriptor (props : Props) (state : State)
    (adjacent : Option Route) : Option Descriptor :=
  adjacent.bind (fun r =>
    (props.descriptors r.key).orElse (fun _ => state.descriptors r.key))

/-- The dependency tuple computed for index `index` during a derivation. -/
def computeMemo (props : Props) (state : State)
    (gestures : String → Option AnimatedValue) (index : Nat) : SceneMemo :=
  let route := (props.routes[index]?).getD ⟨0, ""⟩
  let previousRoute := if index = 0 then none else props.routes[index - 1]?
  let nextRoute := props.routes[index + 1]?
  let oldScene := state.scenes[index]?
  let currentGesture := (gestures route.key).getD ⟨0, 0⟩
  let previousGesture := previousRoute.bind (fun r => gestures r.key)
  let nextGesture := nextRoute.bind (fun r => gestures r.key)
  let descriptor :=
    ((props.descriptors route.key).orElse (fun _ => state.descriptors route.key)).getD
      (match oldScene with
       | some s => s.descriptor
       | none => FALLBACK_DESCRIPTOR)
  { route := route
    layout := state.layout
    descriptor := descriptor
    nextDescriptor := resolveAdjacentDescriptor props state nextRoute
    previousDescriptor := resolveAdjacentDescriptor props state previousRoute
    gesture := currentGesture
    nextGesture := nextGesture
    previousGesture := previousGesture }

/-- The scene produced at index `index` by the `scenes` map of
`getDerivedStateFromProps` (CardStack.tsx lines 183-258): build the scene and
its memo, then return the previous scene object if all 8 memo entries are
`===`-equal to the previous ones. -/
def sceneAt (props : Props) (state : State)
    (gestures : String → Option AnimatedValue) (index : Nat) : Scene :=
  let memo := computeMemo props state gestures index
  let oldScene := state.scenes[index]?
  let scene : Scene :=
    { route := memo.route
      descriptor := memo.descriptor
      progress :=
        { current :=
            getProgressFromGesture props.mode memo.gesture state.layout
              (some memo.descriptor)
          next := memo.nextGesture.map (fun g =>
            getProgressFromGesture props.mode g state.layout memo.nextDescriptor)
          previous := memo.previousGesture.map (fun g =>
            getProgressFromGesture props.mode g state.layout memo.previousDescriptor) }
      memo := memo }
  match oldScene with
  | some old => if old.memo = memo then old else scene
  | none => scene

/-- `CardStack.getDerivedStateFromProps` (CardStack.tsx lines 157-269).
Returns `none` (no state update) when both the routes array and the
descriptors map are reference-unchanged; otherwise returns the new state.
`fresh` supplies allocation ids for newly created `Animated.Value`s. -/
def getDerivedStateFromProps (props : Props) (state : State) (fresh : Nat) :
    Option State :=
  if props.routesId = state.routesId ∧ props.descriptorsId = state.descriptorsId then
    none
  else
    some
      { routesId := props.routesId
        routes := props.routes
        descriptorsId := props.descriptorsId
        descriptors := props.descriptors
        scenes := (List.range props.routes.length).map
          (sceneAt props state (buildGestures props state fresh))
        gestures := buildGestures props state fresh
        layout := state.layout
        headerHeights := getHeaderHeights props.routes props.insets
          state.descriptors state.layout state.headerHeights }

/-- Apply a derivation, keeping the old state when the derivation returns
`null`. -/
def applyDerive (props : Props) (fresh : Nat) (state : State) : State :=
  (getDerivedStateFromProps props state fresh).getD state

/-- `handleHeaderLayout` (CardStack.tsx lines 314-335): record a measured
header height; `none` models the `null` state update (no-op) taken when the
stored height already equals the new one. -/
def handleHeaderLayout (headerHeights : String → Option ℚ) (k : String)
    (height : ℚ) : Option (String → Option ℚ) :=
  if headerHeights k = some height then none
  else some (setKey headerHeights k height)

/-- `EPSILON` (CardStack.tsx line 78). -/
def EPSILON : ℚ := 1 / 100

/-- The `activeLimit` default in `render` (CardStack.tsx line 384):
2 for modal mode, 1 otherwise. -/
def resolveActiveLimit (mode : StackCardMode) (activeLimit : Option Nat) : Nat :=
  activeLimit.getD (if mode = .modal then 2 else 1)

/-- The `isScreenActive` value for the screen at `index` (CardStack.tsx lines
482-490): interpolate the progress of the scene `activeLimit` positions above
over `[0, 1-ε, 1] → [1, 1, 0]` with clamping, or the constant 1 when no such
scene exists.  `env` gives the current numeric value of each gesture tracker
(by tracker id). -/
def isScreenActive (scenes : List Scene) (env : Nat → ℚ)
    (index activeLimit : Nat) : ℚ :=
  match scenes[index + activeLimit]? with
  | some sceneForActivity =>
    interpolate [0, 1 - EPSILON, 1] [1, 1, 0] true
      (sceneForActivity.progress.current.eval
        (env sceneForActivity.progress.current.parent.id))
  | none => 1

/-- The `defaultTransitionPreset` of `render` (CardStack.tsx lines 393-401):
the mode preset, with the header interpolator replaced by the no-animation
one when `headerMode` is `'screen'`. -/
def defaultTransitionPreset (mode : StackCardMode) (headerMode : StackHeaderMode) :
    TransitionPreset :=
  let base := if mode = .modal then ModalTransition else DefaultTransition
  if headerMode = .screen then
    { base with headerStyleInterpolator := .forNoAnimationHeader }
  else base

/-- The effective transition configuration of a screen. -/
structure TransitionConfig where
  gestureDirection : GestureDirection
  transitionSpec : TransitionSpecToken
  cardStyleInterpolator : CardInterpolatorToken
  headerStyleInterpolator : HeaderInterpolatorToken
deriving DecidableEq

/-- The destructuring-with-defaults of a descriptor's options in `render`
(CardStack.tsx lines 498-517 and 536-546): each member falls back to the
preset, and `cardStyleInterpolator` falls back to the no-animation
interpolator when `animationEnabled` is explicitly false. -/
def resolveTransitionConfig (preset : TransitionPreset)
    (options : StackNavigationOptions) : TransitionConfig :=
  { gestureDirection := options.gestureDirection.getD preset.gestureDirection
    transitionSpec := options.transitionSpec.getD preset.transitionSpec
    cardStyleInterpolator := options.cardStyleInterpolator.getD
      (if options.animationEnabled = some false then .forNoAnimationCard
       else preset.cardStyleInterpolator)
    headerStyleInterpolator :=
      options.headerStyleInterpolator.getD preset.headerStyleInterpolator }

/-- The `transitionConfig` computed for the screen at `index` in `render`
(CardStack.tsx lines 498-555): resolve from the screen's own descriptor, then
override with the next scene's resolution when the screen is not the last one
and the next scene exists. -/
def sceneTransitionConfig (preset : TransitionPreset) (scenes : List Scene)
    (routesLength index : Nat) : TransitionConfig :=
  let ownOptions :=
    match scenes[index]? with
    | some scene => scene.descriptor.options
    | none => {}
  let own := resolveTransitionConfig preset ownOptions
  if index ≠ routesLength - 1 then
    match scenes[index + 1]? with
    | some nextScene => resolveTransitionConfig preset nextScene.descriptor.options
    | none => own
  else own

/-! ### Concrete fixtures used by counterexamples and witnesses -/

/-- Zero safe-area insets. -/
def insets0 : Insets := ⟨0, 0, 0, 0⟩

/-- A 360×640 portrait layout. -/
def layoutP : Layout := ⟨360, 640⟩

def routeA : Route := ⟨1, "a"⟩

def routeB : Route := ⟨2, "b"⟩

def routeC : Route := ⟨3, "c"⟩

def routeD : Route := ⟨4, "d"⟩

def descA : Descriptor := ⟨5, {}⟩

def descB : Descriptor := ⟨6, {}⟩

/-- A descriptor overriding the gesture direction to vertical. -/
def descVertical : Descriptor := ⟨7, { gestureDirection := some .vertical }⟩

/-- A state holding a stale descriptor for route "b" (the closing-route
situation: "b" is still rendered but its descriptor is gone from the
incoming props). -/
def state0Stale : State :=
  { routesId := 0
    routes := []
    descriptorsId := 0
    descriptors := fun k => if k = "b" then some descB else none
    scenes := []
    gestures := fun _ => none
    layout := layoutP
    headerHeights := fun _ => none }

/-- Props whose descriptor map covers route "a" only, while the route list
still contains "b". -/
def props1Stale : Props :=
  { mode := .card
    insets := insets0
    routesId := 10
    routes := [routeA, routeB]
    descriptorsId := 20
    descriptors := fun k => if k = "a" then some descA else none
    openingRouteKeys := [] }

/-- The same props content as `props1Stale` delivered in fresh containers
(new array/map objects, identical elements). -/
def props2Stale : Props :=
  { mode := .card
    insets := insets0
    routesId := 11
    routes := [routeA, routeB]
    descriptorsId := 21
    descriptors := fun k => if k = "a" then some descA else none
    openingRouteKeys := [] }

/-- An empty initial state with a portrait layout. -/
def stateEmpty : State :=
  { routesId := 0
    routes := []
    descriptorsId := 0
    descriptors := fun _ => none
    scenes := []
    gestures := fun _ => none
    layout := layoutP
    headerHeights := fun _ => none }

/-- Props for a 4-route stack, no descriptors, nothing opening (all idle). -/
def props4Idle : Props :=
  { mode := .card
    insets := insets0
    routesId := 1
    routes := [routeA, routeB, routeC, routeD]
    descriptorsId := 1
    descriptors := fun _ => none
    openingRouteKeys := [] }

/-- Props for a 3-route stack where the middle route requests a vertical
gesture direction and the top route has no override. -/
def props3Borrow : Props :=
  { mode := .card
    insets := insets0
    routesId := 2
    routes := [routeA, routeB, routeC]
    descriptorsId := 2
    descriptors := fun k => if k = "b" then some descVertical else none
    openingRouteKeys := [] }

/-- The scenes of the derived 3-route stack of `props3Borrow`. -/
def scenes3Borrow : List Scene :=
  (applyDerive props3Borrow 100 stateEmpty).scenes

/-- A state whose layout has degenerate (zero) dimensions. -/
def stateZeroLayout : State :=
  { routesId := 0
    routes := []
    descriptorsId := 0
    descriptors := fun _ => none
    scenes := []
    gestures := fun _ => none
    layout := ⟨0, 0⟩
    headerHeights := fun _ => none }

/-- Props pushing an opening route "a" (animation enabled by default). -/
def propsOpenA : Props :=
  { mode := .card
    insets := insets0
    routesId := 3
    routes := [routeA]
    descriptorsId := 3
    descriptors := fun _ => none
    openingRouteKeys := ["a"] }

/-- Props with full descriptor coverage for routes "a" and "b". -/
def props1Cov : Props :=
  { mode := .card
    insets := insets0
    routesId := 30
    routes := [routeA, routeB]
    descriptorsId := 40
    descriptors := fun k => if k = "a" then some descA else if k = "b" then some descB else none
    openingRouteKeys := [] }

/-- The same content as `props1Cov` in fresh containers. -/
def props2Cov : Props :=
  { mode := .card
    insets := insets0
    routesId := 31
    routes := [routeA, routeB]
    descriptorsId := 41
    descriptors := fun k => if k = "a" then some descA else if k = "b" then some descB else none
    openingRouteKeys := [] }

/-- A descriptor with an explicit `headerStyle.height` of 50. -/
def descH1 : Descriptor := ⟨8, { headerStyleHeight := some 50 }⟩

/-- A descriptor with an explicit `headerStyle.height` of 60. -/
def descH2 : Descriptor := ⟨9, { headerStyleHeight := some 60 }⟩

/-- A state whose stored descriptor for "a" declares header height 50. -/
def state0H : State :=
  { stateEmpty with descriptors := fun k => if k = "a" then some descH1 else none }

/-- Props delivering a new descriptor for "a" with header height 60. -/
def props1H : Props :=
  { mode := .card
    insets := insets0
    routesId := 50
    routes := [routeA]
    descriptorsId := 60
    descriptors := fun k => if k = "a" then some descH2 else none
    openingRouteKeys := [] }

/-- The same content as `props1H` in fresh containers. -/
def props2H : Props :=
  { mode := .card
    insets := insets0
    routesId := 51
    routes := [routeA]
    descriptorsId := 61
    descriptors := fun k => if k = "a" then some descH2 else none
    openingRouteKeys := [] }

/-- The scenes of the derived 4-route idle stack. -/
def scenes4Idle : List Scene :=
  (applyDerive props4Idle 100 stateEmpty).scenes

/-- The topmost scene of the derived 3-route stack of `props3Borrow`. -/
def scene3Top : Scene :=
  sceneAt props3Borrow stateEmpty (buildGestures props3Borrow stateEmpty 100) 2

/-! ### Interpolation endpoint lemmas -/

lemma interpolate_pair_left (a b c d : ℚ) : interpolate [a, b] [c, d] false a = c := by
  simp [interpolate]

lemma interpolate_pair_right (a b c d : ℚ) (h : b ≠ a) :
    interpolate [a, b] [c, d] false b = d := by
  have hba : b - a ≠ 0 := sub_ne_zero.mpr h
  simp only [interpolate, true_or, if_true, Bool.false_eq_true, if_false]
  field_simp

lemma atLeastOne_ge_one (x : ℚ) : 1 ≤ atLeastOne x := by
  unfold atLeastOne
  split
  · exact le_refl 1
  · linarith [not_lt.mp (by assumption)]

lemma distanceForDirection_clamped_ge_one (layout : Layout) (d : GestureDirection) :
    1 ≤ |getDistanceForDirection (clampLayout layout) d| := by
  have hw := atLeastOne_ge_one layout.width
  have hh := atLeastOne_ge_one layout.height
  cases d <;> simp only [getDistanceForDirection, clampLayout, abs_neg] <;>
    rw [abs_of_nonneg (by linarith)] <;> assumption

lemma distanceFromOptions_clamped_ge_one (mode : StackCardMode) (layout : Layout)
    (descriptor : Option Descriptor) :
    1 ≤ |getDistanceFromOptions mode (clampLayout layout) descriptor| :=
  distanceForDirection_clamped_ge_one layout _

lemma distanceFromOptions_clamped_ne_zero (mode : StackCardMode) (layout : Layout)
    (descriptor : Option Descriptor) :
    getDistanceFromOptions mode (clampLayout layout) descriptor ≠ 0 := by
  intro h0
  have h1 := distanceFromOptions_clamped_ge_one mode layout descriptor
  rw [h0, abs_zero] at h1
  norm_num at h1

lemma progress_eval_zero (mode : StackCardMode) (gesture : AnimatedValue)
    (layout : Layout) (descriptor : Option Descriptor) :
    (getProgressFromGesture mode gesture layout descriptor).eval 0 = 1 := by
  have hne := distanceFromOptions_clamped_ne_zero mode layout descriptor
  by_cases hpos : getDistanceFromOptions mode (clampLayout layout) descriptor > 0
  · simp only [getProgressFromGesture, Interpolation.eval, if_pos hpos]
    exact interpolate_pair_left 0 _ 1 0
  · simp only [getProgressFromGesture, Interpolation.eval, if_neg hpos]
    exact interpolate_pair_right _ 0 0 1 (fun h => hne h.symm)

lemma progress_eval_distance (mode : StackCardMode) (gesture : AnimatedValue)
    (layout : Layout) (descriptor : Option Descriptor) :
    (getProgressFromGesture mode gesture layout descriptor).eval
      (getDistanceFromOptions mode (clampLayout layout) descriptor) = 0 := by
  have hne := distanceFromOptions_clamped_ne_zero mode layout descriptor
  by_cases hpos : getDistanceFromOptions mode (clampLayout layout) descriptor > 0
  · simp only [getProgressFromGesture, Interpolation.eval, if_pos hpos]
    exact interpolate_pair_right 0 _ 1 0 hne
  · simp only [getProgressFromGesture, Interpolation.eval, if_neg hpos]
    exact interpolate_pair_left _ 0 0 1

/-! ### Map lookup lemmas for the gesture and header-height objects -/

lemma buildGesturesGo_mem (sg : String → Option AnimatedValue) (initOf : String → ℚ)
    (k : String) (g : AnimatedValue) (h : sg k = some g) (rs : List Route) :
    ∀ (fresh : Nat) (acc : String → Option AnimatedValue),
      buildGesturesGo sg initOf rs fresh acc k =
        if k ∈ rs.map Route.key then some g else acc k := by
  induction rs with
  | nil => intro fresh acc; simp [buildGesturesGo]
  | cons r rest ih =>
    intro fresh acc
    cases hsr : sg r.key with
    | some g2 =>
      rw [buildGesturesGo, hsr]
      dsimp only
      rw [ih fresh (setKey acc r.key g2)]
      by_cases hmem : k ∈ rest.map Route.key
      · rw [if_pos hmem, if_pos (by simp [hmem])]
      · rw [if_neg hmem]
        by_cases hk : k = r.key
        · have hg2 : g2 = g := by
            rw [hk] at h
            rw [h] at hsr
            exact (Option.some.inj hsr).symm
          rw [if_pos (by simp [hk]), setKey, if_pos hk, hg2]
        · rw [if_neg (by simp [hk, hmem]), setKey, if_neg hk]
    | none =>
      have hk : k ≠ r.key := by
        intro he
        rw [← he] at hsr
        rw [h] at hsr
        exact Option.noConfusion hsr
      rw [buildGesturesGo, hsr]
      dsimp only
      rw [ih (fresh + 1) (setKey acc r.key ⟨fresh, initOf r.key⟩)]
      by_cases hmem : k ∈ rest.map Route.key
      · rw [if_pos hmem, if_pos (by simp [hmem])]
      · rw [if_neg hmem, if_neg (by simp [hk, hmem]), setKey, if_neg hk]

lemma buildGesturesGo_new (sg : String → Option AnimatedValue) (initOf : String → ℚ)
    (k : String) (h : sg k = none) (rs : List Route) :
    ∀ (fresh : Nat) (acc : String → Option AnimatedValue),
      (buildGesturesGo sg initOf rs fresh acc k).map AnimatedValue.initial =
        if k ∈ rs.map Route.key then some (initOf k)
        else (acc k).map AnimatedValue.initial := by
  induction rs with
  | nil => intro fresh acc; simp [buildGesturesGo]
  | cons r rest ih =>
    intro fresh acc
    cases hsr : sg r.key with
    | some g2 =>
      have hk : k ≠ r.key := by
        intro he
        rw [← he] at hsr
        rw [h] at hsr
        exact Option.noConfusion hsr
      rw [buildGesturesGo, hsr]
      dsimp only
      rw [ih fresh (setKey acc r.key g2)]
      by_cases hmem : k ∈ rest.map Route.key
      · rw [if_pos hmem, if_pos (by simp [hmem])]
      · rw [if_neg hmem, if_neg (by simp [hk, hmem]), setKey, if_neg hk]
    | none =>
      rw [buildGesturesGo, hsr]
      dsimp only
      rw [ih (fresh + 1) (setKey acc r.key ⟨fresh, initOf r.key⟩)]
      by_cases hmem : k ∈ rest.map Route.key
      · rw [if_pos hmem, if_pos (by simp [hmem])]
      · rw [if_neg hmem]
        by_cases hk : k = r.key
        · rw [if_pos (by simp [hk]), setKey, if_pos hk]
          simp [hk]
        · rw [if_neg (by simp [hk, hmem]), setKey, if_neg hk]

lemma buildGestures_lookup_some (props : Props) (state : State) (fresh : Nat)
    (k : String) (hk : k ∈ props.routes.map Route.key) :
    ∃ g, buildGestures props state fresh k = some g := by
  unfold buildGestures
  cases hsg : state.gestures k with
  | some g =>
    exact ⟨g, by rw [buildGesturesGo_mem state.gestures _ k g hsg props.routes fresh _,
      if_pos hk]⟩
  | none =>
    have h2 := buildGesturesGo_new state.gestures (gestureInitValue props state) k hsg
      props.routes fresh (fun _ => none)
    rw [if_pos hk] at h2
    cases hl : buildGesturesGo state.gestures (gestureInitValue props state)
        props.routes fresh (fun _ => none) k with
    | none => rw [hl] at h2; exact Option.noConfusion h2
    | some g => exact ⟨g, rfl⟩

lemma foldl_setKey_lookup (hfun : String → ℚ) (k : String) (rs : List Route) :
    ∀ acc : String → Option ℚ,
      (rs.foldl (fun a r => setKey a r.key (hfun r.key)) acc) k =
        if k ∈ rs.map Route.key then some (hfun k) else acc k := by
  induction rs with
  | nil => intro acc; simp
  | cons r rest ih =>
    intro acc
    rw [List.foldl_cons, ih]
    by_cases hmem : k ∈ rest.map Route.key
    · rw [if_pos hmem, if_pos (by simp [hmem])]
    · rw [if_neg hmem]
      by_cases hk : k = r.key
      · rw [if_pos (by simp [hk]), setKey, if_pos hk, hk]
      · rw [if_neg (by simp [hk, hmem]), setKey, if_neg hk]

lemma getHeaderHeights_lookup (routes : List Route) (insets : Insets)
    (ds : String → Option Descriptor) (layout : Layout)
    (previous : String → Option ℚ) (k : String) :
    getHeaderHeights routes insets ds layout previous k =
      if k ∈ routes.map Route.key
      then some (headerHeightFor insets ds layout previous k) else none := by
  unfold getHeaderHeights
  exact foldl_setKey_lookup (headerHeightFor insets ds layout previous) k routes _

lemma headerHeightFor_explicit (insets : Insets) (ds : String → Option Descriptor)
    (layout : Layout) (previous : String → Option ℚ) (k : String) (h : ℚ)
    (hsty : (((ds k).map Descriptor.options).getD {}).headerStyleHeight = some h) :
    headerHeightFor insets ds layout previous k = h := by
  simp only [headerHeightFor]
  rw [hsty]

lemma headerHeightFor_previous (insets : Insets) (ds : String → Option Descriptor)
    (layout : Layout) (previous : String → Option ℚ) (k : String) (hPrev : ℚ)
    (hsty : (((ds k).map Descriptor.options).getD {}).headerStyleHeight = none)
    (hprev : previous k = some hPrev) :
    headerHeightFor insets ds layout previous k = hPrev := by
  simp only [headerHeightFor]
  rw [hsty]
  dsimp only
  rw [hprev]

lemma headerHeightFor_default (insets : Insets) (ds : String → Option Descriptor)
    (layout : Layout) (previous : String → Option ℚ) (k : String)
    (hsty : (((ds k).map Descriptor.options).getD {}).headerStyleHeight = none)
    (hprev : previous k = none) :
    headerHeightFor insets ds layout previous k =
      getDefaultHeaderHeight layout
        ((((ds k).map Descriptor.options).getD {}).headerStatusBarHeight.getD
          ((((ds k).map Descriptor.options).getD {}).safeAreaInsetsTop.getD insets.top)) := by
  simp only [headerHeightFor]
  rw [hsty]
  dsimp only
  rw [hprev]

lemma derive_some_spec {props : Props} {state : State} {fresh : Nat} {st : State}
    (h : getDerivedStateFromProps props state fresh = some st) :
    st.routes = props.routes ∧ st.descriptors = props.descriptors ∧
      st.layout = state.layout ∧
      st.gestures = buildGestures props state fresh ∧
      st.scenes = (List.range props.routes.length).map
        (sceneAt props state (buildGestures props state fresh)) ∧
      st.headerHeights = getHeaderHeights props.routes props.insets state.descriptors
        state.layout state.headerHeights := by
  unfold getDerivedStateFromProps at h
  split at h
  · exact absurd h (by simp)
  · injection h with h2
    rw [← h2]
    exact ⟨rfl, rfl, rfl, rfl, rfl, rfl⟩

/-! ### C1 -/

/-- C1: the claim states that `getProgressFromGesture` yields progress 0 at
tracker value 0 and progress 1 at the full distance.  The code does the
opposite: for the default card stack on a 100×200 layout the mapper
evaluates to 1 (not 0) at tracker value 0. -/
theorem progress_zero_counterexample :
    (getProgressFromGesture .card ⟨1, 0⟩ ⟨100, 200⟩ none).eval 0 = 1 ∧ (1 : ℚ) ≠ 0 :=
  ⟨progress_eval_zero .card ⟨1, 0⟩ ⟨100, 200⟩ none, one_ne_zero⟩

/-- C1 (amended): for every mode, layout and gesture direction, the
progress-from-gesture mapper yields progress 1 at tracker value 0 (fully
focused/shown) and progress 0 at a tracker value equal to the full
transition distance (fully off-screen); i.e. `progress.current` is
normalized so that 1 means focused and 0 means off-screen. -/
theorem progress_endpoints_amended (mode : StackCardMode) (gesture : AnimatedValue)
    (layout : Layout) (descriptor : Option Descriptor) :
    (getProgressFromGesture mode gesture layout descriptor).eval 0 = 1 ∧
    (getProgressFromGesture mode gesture layout descriptor).eval
      (getDistanceFromOptions mode (clampLayout layout) descriptor) = 0 :=
  ⟨progress_eval_zero mode gesture layout descriptor,
   progress_eval_distance mode gesture layout descriptor⟩

/-! ### C3 -/

/-- C3: for a route newly added to the route list (no tracker stored for its
key), the freshly created gesture tracker's initial value is the full
transition distance — computed from the current (state) layout, mode and the
route's descriptor's gesture direction — exactly when the route's key is in
the opening set and its resolved `animationEnabled` option is not explicitly
false, and 0 otherwise. -/
theorem gesture_tracker_initial_value (props : Props) (state : State) (fresh : Nat)
    (st1 : State) (r : Route)
    (hd : getDerivedStateFromProps props state fresh = some st1)
    (hr : r ∈ props.routes)
    (hnew : state.gestures r.key = none) :
    (st1.gestures r.key).map AnimatedValue.initial =
      some (if r.key ∈ props.openingRouteKeys ∧
              (props.descriptors r.key).bind (fun d => d.options.animationEnabled) ≠
                some false
            then getDistanceFromOptions props.mode state.layout (props.descriptors r.key)
            else 0) := by
  obtain ⟨-, -, -, hg, -, -⟩ := derive_some_spec hd
  rw [hg]
  unfold buildGestures
  rw [buildGesturesGo_new state.gestures _ r.key hnew props.routes fresh _,
    if_pos (List.mem_map_of_mem Route.key hr)]
  rfl

theorem gesture_tracker_initial_value_witness :
    ((applyDerive propsOpenA 50 stateEmpty).gestures "a").map AnimatedValue.initial =
      some 360 := by
  have hd : getDerivedStateFromProps propsOpenA stateEmpty 50 =
      some (applyDerive propsOpenA 50 stateEmpty) := rfl
  have h := gesture_tracker_initial_value propsOpenA stateEmpty 50
    (applyDerive propsOpenA 50 stateEmpty) routeA hd (by decide) rfl
  have hkey : routeA.key = "a" := rfl
  rw [← hkey, h]
  decide

/-! ### C4 -/

lemma applyDerive_gesture_step (props : Props) (fresh : Nat) (state : State)
    (k : String) (g : AnimatedValue) (h : state.gestures k = some g)
    (hk : k ∈ props.routes.map Route.key) :
    (applyDerive props fresh state).gestures k = some g := by
  unfold applyDerive
  cases hd : getDerivedStateFromProps props state fresh with
  | none => simpa using h
  | some st =>
    obtain ⟨-, -, -, hg, -, -⟩ := derive_some_spec hd
    simp only [Option.getD_some]
    rw [hg]
    unfold buildGestures
    rw [buildGesturesGo_mem state.gestures _ k g h props.routes fresh _, if_pos hk]

/-- C4: once a gesture tracker exists for a route key, any sequence of
derivations in each of which the route is still present in the incoming route
list maps the key to the very same tracker object (it is never replaced). -/
theorem gesture_tracker_identity (steps : List (Props × Nat)) (state : State)
    (k : String) (g : AnimatedValue)
    (h : state.gestures k = some g)
    (hall : ∀ s ∈ steps, k ∈ s.1.routes.map Route.key) :
    (steps.foldl (fun st s => applyDerive s.1 s.2 st) state).gestures k = some g := by
  induction steps generalizing state with
  | nil => simpa using h
  | cons s rest ih =>
    rw [List.foldl_cons]
    exact ih (applyDerive s.1 s.2 state)
      (applyDerive_gesture_step s.1 s.2 state k g h (hall s (by simp)))
      (fun t ht => hall t (by simp [ht]))

theorem gesture_tracker_identity_witness :
    (([(propsOpenA, 7)].foldl (fun st s => applyDerive s.1 s.2 st)
        { stateEmpty with
          gestures := fun k => if k = "a" then some ⟨42, 0⟩ else none }).gestures "a") =
      some ⟨42, 0⟩ :=
  gesture_tracker_identity [(propsOpenA, 7)] _ "a" ⟨42, 0⟩ rfl (by decide)

/-! ### C7 -/

/-- C7: header-height recomputation resolves, per route key: the explicit
numeric `headerStyle.height` if present; else the previous map's entry; else
the platform-default height from the layout and the resolved status-bar
height (the descriptor's `headerStatusBarHeight`, else the per-route
overridden safe-area top inset).  The returned map is defined exactly on the
current routes' keys (a full replacement). -/
theorem header_height_resolution :
    (∀ (routes : List Route) (insets : Insets) (ds : String → Option Descriptor)
        (layout : Layout) (previous : String → Option ℚ) (k : String),
        getHeaderHeights routes insets ds layout previous k =
          if k ∈ routes.map Route.key
          then some (headerHeightFor insets ds layout previous k) else none) ∧
    (∀ (insets : Insets) (ds : String → Option Descriptor) (layout : Layout)
        (previous : String → Option ℚ) (k : String) (h : ℚ),
        (((ds k).map Descriptor.options).getD {}).headerStyleHeight = some h →
        headerHeightFor insets ds layout previous k = h) ∧
    (∀ (insets : Insets) (ds : String → Option Descriptor) (layout : Layout)
        (previous : String → Option ℚ) (k : String) (hPrev : ℚ),
        (((ds k).map Descriptor.options).getD {}).headerStyleHeight = none →
        previous k = some hPrev →
        headerHeightFor insets ds layout previous k = hPrev) ∧
    (∀ (insets : Insets) (ds : String → Option Descriptor) (layout : Layout)
        (previous : String → Option ℚ) (k : String),
        (((ds k).map Descriptor.options).getD {}).headerStyleHeight = none →
        previous k = none →
        headerHeightFor insets ds layout previous k =
          getDefaultHeaderHeight layout
            ((((ds k).map Descriptor.options).getD {}).headerStatusBarHeight.getD
              ((((ds k).map Descriptor.options).getD {}).safeAreaInsetsTop.getD
                insets.top))) :=
  ⟨getHeaderHeights_lookup,
   fun insets ds layout previous k h hsty =>
     headerHeightFor_explicit insets ds layout previous k h hsty,
   fun insets ds layout previous k hPrev hsty hprev =>
     headerHeightFor_previous insets ds layout previous k hPrev hsty hprev,
   fun insets ds layout previous k hsty hprev =>
     headerHeightFor_default insets ds layout previous k hsty hprev⟩

theorem header_height_resolution_witness :
    getHeaderHeights [routeA] insets0 (fun k => if k = "a" then some descH1 else none)
      layoutP (fun _ => none) "a" = some 50 := by
  rw [header_height_resolution.1 [routeA] insets0 _ layoutP (fun _ => none) "a",
    if_pos (by decide),
    header_height_resolution.2.1 insets0 _ layoutP (fun _ => none) "a" 50 (by decide)]

/-! ### C8 -/

/-- C8: recording a measured header height is a no-op (`null` state update)
exactly when the new height equals the stored one; otherwise it updates that
key's entry and leaves every other key unchanged. -/
theorem record_measured_header_height :
    (∀ (hh : String → Option ℚ) (k : String) (v : ℚ),
        hh k = some v → handleHeaderLayout hh k v = none) ∧
    (∀ (hh : String → Option ℚ) (k : String) (v : ℚ),
        hh k ≠ some v →
        handleHeaderLayout hh k v = some (setKey hh k v) ∧
        setKey hh k v k = some v ∧
        ∀ x, x ≠ k → setKey hh k v x = hh x) := by
  constructor
  · intro hh k v h
    unfold handleHeaderLayout
    rw [if_pos h]
  · intro hh k v h
    refine ⟨?_, ?_, ?_⟩
    · unfold handleHeaderLayout
      rw [if_neg h]
    · simp [setKey]
    · intro x hx
      simp [setKey, hx]

theorem record_measured_header_height_witness :
    handleHeaderLayout (fun k => if k = "a" then some 50 else none) "a" 50 = none :=
  record_measured_header_height.1 _ "a" 50 rfl

/-! ### C10 -/

/-- C10: a derivation recomputes the header-height map from the previous
state's descriptors (not the incoming props' descriptors); hence a changed
explicit `headerStyle.height` delivered by new props takes effect only on the
following derivation. -/
theorem header_heights_use_previous_descriptors :
    (∀ (props : Props) (state : State) (fresh : Nat) (st1 : State),
        getDerivedStateFromProps props state fresh = some st1 →
        st1.headerHeights = getHeaderHeights props.routes props.insets
          state.descriptors state.layout state.headerHeights) ∧
    (∀ (props1 : Props) (state0 : State) (fresh1 : Nat) (st1 : State) (k : String)
        (d1 d2 : Descriptor) (h1 h2 : ℚ),
        getDerivedStateFromProps props1 state0 fresh1 = some st1 →
        k ∈ props1.routes.map Route.key →
        state0.descriptors k = some d1 →
        d1.options.headerStyleHeight = some h1 →
        props1.descriptors k = some d2 →
        d2.options.headerStyleHeight = some h2 →
        st1.headerHeights k = some h1 ∧
        ∀ (props2 : Props) (fresh2 : Nat) (st2 : State),
          getDerivedStateFromProps props2 st1 fresh2 = some st2 →
          k ∈ props2.routes.map Route.key →
          st2.headerHeights k = some h2) := by
  have hfirst : ∀ (props : Props) (state : State) (fresh : Nat) (st1 : State),
      getDerivedStateFromProps props state fresh = some st1 →
      st1.headerHeights = getHeaderHeights props.routes props.insets
        state.descriptors state.layout state.headerHeights :=
    fun props state fresh st1 hd => (derive_some_spec hd).2.2.2.2.2
  refine ⟨hfirst, ?_⟩
  intro props1 state0 fresh1 st1 k d1 d2 h1 h2 hd1 hk hsd1 hsty1 hpd2 hsty2
  have hdesc1 : st1.descriptors = props1.descriptors := (derive_some_spec hd1).2.1
  constructor
  · have hsty : (((state0.descriptors k).map Descriptor.options).getD {}).headerStyleHeight =
        some h1 := by
      rw [hsd1]
      simpa using hsty1
    rw [hfirst props1 state0 fresh1 st1 hd1, getHeaderHeights_lookup, if_pos hk,
      headerHeightFor_explicit props1.insets state0.descriptors state0.layout
        state0.headerHeights k h1 hsty]
  · intro props2 fresh2 st2 hd2 hk2
    have hsty : (((st1.descriptors k).map Descriptor.options).getD {}).headerStyleHeight =
        some h2 := by
      rw [hdesc1, hpd2]
      simpa using hsty2
    rw [hfirst props2 st1 fresh2 st2 hd2, getHeaderHeights_lookup, if_pos hk2,
      headerHeightFor_explicit props2.insets st1.descriptors st1.layout
        st1.headerHeights k h2 hsty]

/-! ### C9 -/

/-- C9: the claim states the ≥1 layout coercion applies on every code path
that computes a transition distance, including gesture-tracker
initialization.  It does not: deriving state with a 0×0 layout and an
opening route creates a tracker with initial value 0 (the raw zero-width
distance), whereas the coerced layout yields distance 1. -/
theorem distance_clamp_counterexample :
    ((applyDerive propsOpenA 50 stateZeroLayout).gestures "a").map
        AnimatedValue.initial = some 0 ∧
    getDistanceFromOptions .card (clampLayout ⟨0, 0⟩) none = 1 ∧
    (0 : ℚ) ≠ 1 := by
  decide

/-- C9 (amended): the ≥1 coercion is applied inside `getProgressFromGesture`
— for every layout (including zero or negative dimensions) the interpolation
input range endpoints are 0 and a distance of magnitude at least 1, so the
range is never degenerate — but gesture-tracker initialization computes its
distance from the raw state layout without the coercion. -/
theorem distance_clamp_amended :
    (∀ (mode : StackCardMode) (gesture : AnimatedValue) (layout : Layout)
        (descriptor : Option Descriptor),
        1 ≤ |getDistanceFromOptions mode (clampLayout layout) descriptor| ∧
        ((getProgressFromGesture mode gesture layout descriptor).inputRange =
            [0, getDistanceFromOptions mode (clampLayout layout) descriptor] ∨
          (getProgressFromGesture mode gesture layout descriptor).inputRange =
            [getDistanceFromOptions mode (clampLayout layout) descriptor, 0])) ∧
    (∀ (props : Props) (state : State) (fresh : Nat) (k : String),
        state.gestures k = none →
        k ∈ props.routes.map Route.key →
        (buildGestures props state fresh k).map AnimatedValue.initial =
          some (if k ∈ props.openingRouteKeys ∧
                  (props.descriptors k).bind (fun d => d.options.animationEnabled) ≠
                    some false
                then getDistanceFromOptions props.mode state.layout
                  (props.descriptors k)
                else 0)) := by
  constructor
  · intro mode gesture layout descriptor
    refine ⟨distanceFromOptions_clamped_ge_one mode layout descriptor, ?_⟩
    by_cases hpos : getDistanceFromOptions mode (clampLayout layout) descriptor > 0
    · left
      simp [getProgressFromGesture, hpos]
    · right
      simp [getProgressFromGesture, hpos]
  · intro props state fresh k h hk
    unfold buildGestures
    rw [buildGesturesGo_new state.gestures _ k h props.routes fresh _, if_pos hk]
    rfl

theorem distance_clamp_amended_witness :
    (buildGestures propsOpenA stateZeroLayout 50 "a").map AnimatedValue.initial =
      some 0 := by
  rw [distance_clamp_amended.2 propsOpenA stateZeroLayout 50 "a" rfl (by decide)]
  decide

/-! ### C6 -/

/-- C6: a screen that is not at the last index and whose next scene exists
takes its effective transition configuration (gesture direction, transition
spec, card and header style interpolators) from the next scene's descriptor
options with mode-default fallbacks; the topmost screen uses its own
options; and in either resolution `cardStyleInterpolator` defaults to the
no-animation interpolator when that descriptor's `animationEnabled` is
explicitly false. -/
theorem transition_config_borrowing :
    (∀ (preset : TransitionPreset) (scenes : List Scene) (routesLength index : Nat)
        (nextScene : Scene),
        index ≠ routesLength - 1 →
        scenes[index + 1]? = some nextScene →
        sceneTransitionConfig preset scenes routesLength index =
          resolveTransitionConfig preset nextScene.descriptor.options) ∧
    (∀ (preset : TransitionPreset) (scenes : List Scene) (routesLength index : Nat)
        (scene : Scene),
        index = routesLength - 1 →
        scenes[index]? = some scene →
        sceneTransitionConfig preset scenes routesLength index =
          resolveTransitionConfig preset scene.descriptor.options) ∧
    (∀ (preset : TransitionPreset) (options : StackNavigationOptions),
        options.cardStyleInterpolator = none →
        options.animationEnabled = some false →
        (resolveTransitionConfig preset options).cardStyleInterpolator =
          CardInterpolatorToken.forNoAnimationCard) := by
  refine ⟨?_, ?_, ?_⟩
  · intro preset scenes routesLength index nextScene hne hnext
    simp only [sceneTransitionConfig]
    rw [if_pos hne, hnext]
  · intro preset scenes routesLength index scene hlast hscene
    simp only [sceneTransitionConfig]
    rw [if_neg (by simp [hlast]), hscene]
  · intro preset options hcard hanim
    simp [resolveTransitionConfig, hcard, hanim]

theorem transition_config_borrowing_witness :
    (sceneTransitionConfig (defaultTransitionPreset .card .float) scenes3Borrow 3
        1).gestureDirection = GestureDirection.horizontal := by
  have hnext : scenes3Borrow[1 + 1]? = some scene3Top := by decide
  rw [transition_config_borrowing.1 (defaultTransitionPreset .card .float) scenes3Borrow
    3 1 scene3Top (by decide) hnext]
  decide

/-! ### C5 -/

lemma isScreenActive_of_none (scenes : List Scene) (env : Nat → ℚ)
    (index limit : Nat) (h : scenes[index + limit]? = none) :
    isScreenActive scenes env index limit = 1 := by
  simp only [isScreenActive, h]

lemma isScreenActive_of_some (scenes : List Scene) (env : Nat → ℚ)
    (index limit : Nat) (sc : Scene) (h : scenes[index + limit]? = some sc) :
    isScreenActive scenes env index limit =
      interpolate [0, 1 - EPSILON, 1] [1, 1, 0] true
        (sc.progress.current.eval (env sc.progress.current.parent.id)) := by
  simp only [isScreenActive, h]

lemma interp_act_at_one : interpolate [0, 1 - EPSILON, 1] [1, 1, 0] true 1 = 0 := by
  rw [interpolate, if_neg (by norm_num [EPSILON]), interpolate,
    if_pos (Or.inl rfl)]
  norm_num [EPSILON]

lemma interp_act_le (t : ℚ) (h : t ≤ 1 - EPSILON) :
    interpolate [0, 1 - EPSILON, 1] [1, 1, 0] true t = 1 := by
  rw [interpolate, if_pos (Or.inr h)]
  simp

lemma sceneAt_progress_current (props : Props) (state : State)
    (gestures : String → Option AnimatedValue) (index : Nat)
    (h : state.scenes[index]? = none) :
    (sceneAt props state gestures index).progress.current =
      getProgressFromGesture props.mode (computeMemo props state gestures index).gesture
        state.layout (some (computeMemo props state gestures index).descriptor) := by
  simp only [sceneAt, h]

lemma idle_inactive (i limit : Nat)
    (hsome : scenes4Idle[i + limit]? = some (sceneAt props4Idle stateEmpty
      (buildGestures props4Idle stateEmpty 100) (i + limit))) :
    isScreenActive scenes4Idle (fun _ => 0) i limit = 0 := by
  rw [isScreenActive_of_some _ _ _ _ _ hsome,
    sceneAt_progress_current props4Idle stateEmpty _ (i + limit) List.getElem?_nil]
  rw [progress_eval_zero]
  exact interp_act_at_one

/-- C5: with `activeLimit` defaulting to 1 in card mode and 2 in modal mode,
the screen at index i is active (value 1) when there is no scene at index
`i + activeLimit`; its activity is the distant scene's progress interpolated
over `[0, 1-0.01, 1] → [1, 1, 0]` with clamping, hence 0 when that progress
is settled at 1 and 1 when it is at most `1-0.01`; in the derived 4-route
idle stack only the topmost screen is active with limit 1, and the top two
with limit 2. -/
theorem activity_windowing :
    resolveActiveLimit .card none = 1 ∧
    resolveActiveLimit .modal none = 2 ∧
    (∀ (scenes : List Scene) (env : Nat → ℚ) (index limit : Nat),
        scenes[index + limit]? = none → isScreenActive scenes env index limit = 1) ∧
    (∀ (scenes : List Scene) (env : Nat → ℚ) (index limit : Nat) (sc : Scene),
        scenes[index + limit]? = some sc →
        sc.progress.current.eval (env sc.progress.current.parent.id) = 1 →
        isScreenActive scenes env index limit = 0) ∧
    (∀ (scenes : List Scene) (env : Nat → ℚ) (index limit : Nat) (sc : Scene),
        scenes[index + limit]? = some sc →
        sc.progress.current.eval (env sc.progress.current.parent.id) ≤ 1 - EPSILON →
        isScreenActive scenes env index limit = 1) ∧
    ((List.range 4).map (fun i => isScreenActive scenes4Idle (fun _ => 0) i 1) =
        [0, 0, 0, 1] ∧
      (List.range 4).map (fun i => isScreenActive scenes4Idle (fun _ => 0) i 2) =
        [0, 0, 1, 1]) := by
  refine ⟨rfl, rfl, isScreenActive_of_none, ?_, ?_, ?_, ?_⟩
  · intro scenes env index limit sc hsome hone
    rw [isScreenActive_of_some _ _ _ _ _ hsome, hone]
    exact interp_act_at_one
  · intro scenes env index limit sc hsome hle
    rw [isScreenActive_of_some _ _ _ _ _ hsome]
    exact interp_act_le _ hle
  · have hr : List.range 4 = [0, 1, 2, 3] := rfl
    rw [hr]
    simp only [List.map_cons, List.map_nil]
    rw [idle_inactive 0 1 (by decide), idle_inactive 1 1 (by decide),
      idle_inactive 2 1 (by decide),
      isScreenActive_of_none scenes4Idle (fun _ => 0) 3 1 (by decide)]
  · have hr : List.range 4 = [0, 1, 2, 3] := rfl
    rw [hr]
    simp only [List.map_cons, List.map_nil]
    rw [idle_inactive 0 2 (by decide), idle_inactive 1 2 (by decide),
      isScreenActive_of_none scenes4Idle (fun _ => 0) 2 2 (by decide),
      isScreenActive_of_none scenes4Idle (fun _ => 0) 3 2 (by decide)]

theorem activity_windowing_witness :
    isScreenActive ([] : List Scene) (fun _ => 0) 0 1 = 1 :=
  activity_windowing.2.2.1 [] (fun _ => 0) 0 1 rfl

/-! ### C2 -/

lemma sceneAt_memo (props : Props) (state : State)
    (gestures : String → Option AnimatedValue) (index : Nat) :
    (sceneAt props state gestures index).memo =
      computeMemo props state gestures index := by
  simp only [sceneAt]
  cases h : state.scenes[index]? with
  | none => rfl
  | some old =>
    dsimp only
    by_cases he : old.memo = computeMemo props state gestures index
    · rw [if_pos he]
      exact he
    · rw [if_neg he]

lemma sceneAt_reuse (props : Props) (state : State)
    (gestures : String → Option AnimatedValue) (index : Nat) (old : Scene)
    (h : state.scenes[index]? = some old)
    (he : old.memo = computeMemo props state gestures index) :
    sceneAt props state gestures index = old := by
  simp only [sceneAt, h]
  rw [if_pos he]

lemma mem_of_lookup {α : Type} {l : List α} {i : Nat} {a : α} (h : l[i]? = some a) :
    a ∈ l := by
  obtain ⟨hlt, rfl⟩ := List.getElem?_eq_some.mp h
  exact List.getElem_mem hlt

lemma orElse_getD_of_some {α : Type} {o : Option α} {d : α} (h : o = some d)
    (f : Unit → Option α) (b : α) : (o.orElse f).getD b = d := by
  rw [h]
  rfl

lemma resolveAdjacentDescriptor_congr (pA pB : Props) (sA sB : State)
    (adj : Option Route)
    (h : ∀ r, adj = some r →
      ((pA.descriptors r.key).orElse (fun _ => sA.descriptors r.key)) =
        ((pB.descriptors r.key).orElse (fun _ => sB.descriptors r.key))) :
    resolveAdjacentDescriptor pA sA adj = resolveAdjacentDescriptor pB sB adj := by
  cases adj with
  | none => rfl
  | some r => exact h r rfl

lemma bindGesture_congr (gA gB : String → Option AnimatedValue) (adj : Option Route)
    (h : ∀ r, adj = some r → gA r.key = gB r.key) :
    adj.bind (fun r => gA r.key) = adj.bind (fun r => gB r.key) := by
  cases adj with
  | none => rfl
  | some r => exact h r rfl

/-- C2: the claim's universal "two successive derivations with unchanged
route list, layout, and descriptors produce reference-identical scenes"
fails when a route present in the list has no descriptor in the incoming
props (a closing route): the first derivation resolves the adjacent
descriptor through the stale `state.descriptors` fallback, the second one no
longer can, so the scene below the closing route is rebuilt even though
nothing changed between the two derivations. -/
theorem scene_reuse_counterexample :
    (applyDerive props2Stale 200 (applyDerive props1Stale 100 state0Stale)).scenes[0]? ≠
      (applyDerive props1Stale 100 state0Stale).scenes[0]? ∧
    props2Stale.routes = props1Stale.routes ∧
    props2Stale.descriptors "a" = props1Stale.descriptors "a" ∧
    props2Stale.descriptors "b" = props1Stale.descriptors "b" := by
  decide

/-- C2 (amended): (1) per index, if all 8 tracked dependencies (route,
layout, descriptor, next/previous descriptor, own/next/previous tracker) are
equal to the previous scene's memo, the previous scene object is returned
unchanged at that index; (2) two successive derivations with unchanged route
list, layout and descriptors produce an output scenes array whose every
element is identical to the previous one, provided every route in the list
has a descriptor in the incoming props (no stale-descriptor fallback in
play). -/
theorem scene_memoization_amended :
    (∀ (props : Props) (state : State) (gestures : String → Option AnimatedValue)
        (index : Nat) (old : Scene),
        state.scenes[index]? = some old →
        old.memo = computeMemo props state gestures index →
        sceneAt props state gestures index = old) ∧
    (∀ (props1 props2 : Props) (state0 : State) (fresh1 fresh2 : Nat) (st1 : State),
        getDerivedStateFromProps props1 state0 fresh1 = some st1 →
        props2.routes = props1.routes →
        (∀ k, props2.descriptors k = props1.descriptors k) →
        (∀ r ∈ props1.routes, (props1.descriptors r.key).isSome = true) →
        (applyDerive props2 fresh2 st1).scenes = st1.scenes) := by
  refine ⟨fun props state gestures index old h he =>
    sceneAt_reuse props state gestures index old h he, ?_⟩
  intro props1 props2 state0 fresh1 fresh2 st1 hd1 hroutes hdesc hcov
  unfold applyDerive
  cases hd2 : getDerivedStateFromProps props2 st1 fresh2 with
  | none => rfl
  | some st2 =>
    obtain ⟨h1r, h1d, h1l, h1g, h1s, -⟩ := derive_some_spec hd1
    obtain ⟨-, -, -, -, h2s, -⟩ := derive_some_spec hd2
    simp only [Option.getD_some]
    rw [h2s, h1s, hroutes]
    apply List.map_congr_left
    intro i hmemr
    have hi : i < props1.routes.length := List.mem_range.mp hmemr
    -- the two gesture objects agree on every current route key
    have hgest : ∀ k, k ∈ props1.routes.map Route.key →
        buildGestures props2 st1 fresh2 k = buildGestures props1 state0 fresh1 k := by
      intro k hk
      obtain ⟨g, hg⟩ := buildGestures_lookup_some props1 state0 fresh1 k hk
      have hst1 : st1.gestures k = some g := by
        rw [h1g]
        exact hg
      have h2 : buildGestures props2 st1 fresh2 k = some g := by
        unfold buildGestures
        rw [buildGesturesGo_mem st1.gestures _ k g hst1 props2.routes fresh2 _,
          if_pos (by rw [hroutes]; exact hk)]
      rw [h2, hg]
    -- descriptor resolution agrees on every current route
    have hres : ∀ r : Route, r ∈ props1.routes →
        ((props2.descriptors r.key).orElse (fun _ => st1.descriptors r.key)) =
          ((props1.descriptors r.key).orElse (fun _ => state0.descriptors r.key)) ∧
        ((props1.descriptors r.key).orElse
          (fun _ => state0.descriptors r.key)).isSome = true := by
      intro r hr
      obtain ⟨d, hd⟩ := Option.isSome_iff_exists.mp (hcov r hr)
      constructor
      · rw [hdesc, hd]
        rfl
      · rw [hd]
        rfl
    have hmemo : computeMemo props2 st1 (buildGestures props2 st1 fresh2) i =
        computeMemo props1 state0 (buildGestures props1 state0 fresh1) i := by
      obtain ⟨r, hr⟩ : ∃ r, props1.routes[i]? = some r :=
        ⟨props1.routes[i], List.getElem?_eq_getElem hi⟩
      have hrmem : r ∈ props1.routes := mem_of_lookup hr
      have hrkey : r.key ∈ props1.routes.map Route.key :=
        List.mem_map_of_mem Route.key hrmem
      obtain ⟨d, hd⟩ := Option.isSome_iff_exists.mp (hcov r hrmem)
      have h2d : props2.descriptors r.key = some d := by
        rw [hdesc]
        exact hd
      have hnextd : ∀ nr, props1.routes[i + 1]? = some nr →
          ((props2.descriptors nr.key).orElse (fun _ => st1.descriptors nr.key)) =
            ((props1.descriptors nr.key).orElse (fun _ => state0.descriptors nr.key)) :=
        fun nr hnr => (hres nr (mem_of_lookup hnr)).1
      have hprevd : ∀ pr, (if i = 0 then none else props1.routes[i - 1]?) = some pr →
          ((props2.descriptors pr.key).orElse (fun _ => st1.descriptors pr.key)) =
            ((props1.descriptors pr.key).orElse (fun _ => state0.descriptors pr.key)) := by
        intro pr hpr
        by_cases h0 : i = 0
        · rw [if_pos h0] at hpr
          exact absurd hpr (by simp)
        · rw [if_neg h0] at hpr
          exact (hres pr (mem_of_lookup hpr)).1
      have hnextg : ∀ nr, props1.routes[i + 1]? = some nr →
          buildGestures props2 st1 fresh2 nr.key =
            buildGestures props1 state0 fresh1 nr.key :=
        fun nr hnr => hgest nr.key (List.mem_map_of_mem Route.key (mem_of_lookup hnr))
      have hprevg : ∀ pr, (if i = 0 then none else props1.routes[i - 1]?) = some pr →
          buildGestures props2 st1 fresh2 pr.key =
            buildGestures props1 state0 fresh1 pr.key := by
        intro pr hpr
        by_cases h0 : i = 0
        · rw [if_pos h0] at hpr
          exact absurd hpr (by simp)
        · rw [if_neg h0] at hpr
          exact hgest pr.key (List.mem_map_of_mem Route.key (mem_of_lookup hpr))
      simp only [computeMemo, hroutes, hr, Option.getD_some, h1l]
      rw [orElse_getD_of_some h2d, orElse_getD_of_some hd,
        resolveAdjacentDescriptor_congr props2 props1 st1 state0 _ hnextd,
        resolveAdjacentDescriptor_congr props2 props1 st1 state0 _ hprevd,
        hgest r.key hrkey,
        bindGesture_congr (buildGestures props2 st1 fresh2)
          (buildGestures props1 state0 fresh1) _ hnextg,
        bindGesture_congr (buildGestures props2 st1 fresh2)
          (buildGestures props1 state0 fresh1) _ hprevg]
    have hold : st1.scenes[i]? =
        some (sceneAt props1 state0 (buildGestures props1 state0 fresh1) i) := by
      rw [h1s, List.getElem?_map, List.getElem?_range hi]
      rfl
    refine sceneAt_reuse props2 st1 (buildGestures props2 st1 fresh2) i _ hold ?_
    rw [sceneAt_memo, hmemo]

theorem scene_memoization_amended_witness :
    (applyDerive props2Cov 200 (applyDerive props1Cov 100 stateEmpty)).scenes =
      (applyDerive props1Cov 100 stateEmpty).scenes :=
  scene_memoization_amended.2 props1Cov props2Cov stateEmpty 100 200
    (applyDerive props1Cov 100 stateEmpty) rfl rfl (fun _ => rfl) (by decide)

theorem header_heights_use_previous_descriptors_witness :
    (applyDerive props1H 100 state0H).headerHeights "a" = some 50 ∧
    (applyDerive props2H 200 (applyDerive props1H 100 state0H)).headerHeights "a" =
      some 60 := by
  have hd1 : getDerivedStateFromProps props1H state0H 100 =
      some (applyDerive props1H 100 state0H) := rfl
  have h := header_heights_use_previous_descriptors.2 props1H state0H 100
    (applyDerive props1H 100 state0H) "a" descH1 descH2 50 60 hd1 (by decide)
    rfl rfl rfl rfl
  refine ⟨h.1, ?_⟩
  have hd2 : getDerivedStateFromProps props2H (applyDerive props1H 100 state0H) 200 =
      some (applyDerive props2H 200 (applyDerive props1H 100 state0H)) := rfl
  exact h.2 props2H 200 _ hd2 (by decide)

end RNStack
